import Mathlib

/-!
Verification of the ONVIF SOAP dispatcher core of `src/onvif_server.cpp`.

The embedding models the request/response core of the server: the device
identity and media-profile store set up by the `OnvifServer` constructor,
the SOAP envelope generator, the six response builders, and the
substring-based request dispatcher `processRequest`.  The transport layer
(sockets, threads, HTTP framing) is out of scope, as is the unrelated
`rtsp_screenshot.cpp` utility.

C++ `std::string` values become Lean `String`; `int` fields become `Int`;
adjacent C++ string literals are fused exactly as the C++ compiler fuses
them, and `+` on strings becomes `++`.  The live system clock read by
`getCurrentTime` is an external input and is threaded through as an
explicit `clock : String` parameter.
-/

set_option maxRecDepth 40000

/-- Classification of a request body by embedded operation name, per the
dispatcher's precedence chain in `OnvifServer::processRequest`. -/
inductive Operation where
  | getDeviceInformation
  | getCapabilities
  | getProfiles
  | getStreamUri
  | getSystemDateAndTime
  | ptzGetConfigurations
  | unrecognized
  deriving DecidableEq, Repr

/-- Embeds `struct MediaProfile` (onvif_server.cpp, lines 32-41). -/
structure MediaProfile where
  token : String
  name : String
  video_encoder_token : String
  audio_encoder_token : String
  width : Int
  height : Int
  framerate : Int
  bitrate : Int
  deriving DecidableEq, Repr, Inhabited

/-- Embeds the dispatcher-relevant state of `class OnvifServer`: the
listening port, the identity fields set by the constructor, and the
media-profile collection.  The socket handle, mutex and running flag are
transport state and never reach the dispatcher. -/
structure OnvifServer where
  port : Int
  device_uuid : String
  device_name : String
  manufacturer : String
  model : String
  serial_number : String
  firmware_version : String
  media_profiles : List MediaProfile
  deriving DecidableEq, Repr

/-- The first profile pushed by `initializeMediaProfiles` (lines 66-74). -/
def profile1 : MediaProfile :=
  ⟨"Profile_1", "MainStream", "VideoEncoder_1", "AudioEncoder_1", 1920, 1080, 30, 4000000⟩

/-- The second profile pushed by `initializeMediaProfiles` (lines 76-84). -/
def profile2 : MediaProfile :=
  ⟨"Profile_2", "SubStream", "VideoEncoder_2", "AudioEncoder_2", 640, 480, 15, 1000000⟩

/-- Embeds `OnvifServer::initializeMediaProfiles` (lines 65-88): the two
default profiles, in push order. -/
def initMediaProfiles : List MediaProfile := [profile1, profile2]

/-- Embeds the `OnvifServer` constructor (lines 48-58). -/
def OnvifServer.init (port : Int) : OnvifServer :=
  ⟨port,
   "urn:uuid:12345678-1234-1234-1234-123456789012",
   "ONVIF Camera",
   "Sample Manufacturer",
   "Sample Model",
   "123456789",
   "1.0.0",
   initMediaProfiles⟩

/-- The server instance constructed in `main` (line 408): `OnvifServer server(8080)`. -/
def defaultServer : OnvifServer := OnvifServer.init 8080

/-- `headMatches pat s` is true iff `pat` is an initial segment of `s`:
the character-by-character comparison `std::string::find` performs at a
single candidate offset. -/
def headMatches : List Char → List Char → Bool
  | [], _ => true
  | _ :: _, [] => false
  | p :: ps, c :: cs => p == c && headMatches ps cs

/-- `occursIn pat s` is true iff `pat` occurs contiguously somewhere in
`s`; it scans every suffix of `s`. -/
def occursIn : List Char → List Char → Bool
  | pat, [] => headMatches pat []
  | pat, c :: cs => headMatches pat (c :: cs) || occursIn pat cs

/-- `countOccur pat s` counts the suffix positions of `s` at which `pat`
matches (occurrences may overlap). -/
def countOccur : List Char → List Char → Nat
  | pat, [] => if headMatches pat [] then 1 else 0
  | pat, c :: cs => (if headMatches pat (c :: cs) then 1 else 0) + countOccur pat cs

/-- Embeds `request.find(pat) != std::string::npos` (lines 291-306). -/
def containsSub (s pat : String) : Bool := occursIn pat.data s.data

/-- Number of (possibly overlapping) occurrences of `pat` in `s`. -/
def countOccurStr (s pat : String) : Nat := countOccur pat.data s.data

/-- `headMatchesStr s pat` is true iff `s` starts with `pat`. -/
def headMatchesStr (s pat : String) : Bool := headMatches pat.data s.data

/-- The constant prefix of every envelope produced by
`OnvifServer::generateSoapEnvelope` (lines 99-104): XML declaration,
`Envelope` open tag with its four namespace declarations, and the `Body`
open tag. -/
def soapHeader : String :=
  "<?xml version=\"1.0\" encoding=\"UTF-8\"?>\n<SOAP-ENV:Envelope xmlns:SOAP-ENV=\"http://www.w3.org/2003/05/soap-envelope\" xmlns:tds=\"http://www.onvif.org/ver10/device/wsdl\" xmlns:trt=\"http://www.onvif.org/ver10/media/wsdl\" xmlns:tptz=\"http://www.onvif.org/ver20/ptz/wsdl\">\n<SOAP-ENV:Body>\n"

/-- The constant suffix of every envelope (lines 104-105). -/
def soapFooter : String := "</SOAP-ENV:Body>\n</SOAP-ENV:Envelope>"

/-- Embeds `OnvifServer::generateSoapEnvelope` (lines 98-106): header and
footer concatenated around the caller-supplied body. -/
def generateSoapEnvelope (body : String) : String := soapHeader ++ body ++ soapFooter

/-- Embeds `OnvifServer::handleGetDeviceInformation` (lines 108-117). -/
def handleGetDeviceInformation (srv : OnvifServer) : String :=
  generateSoapEnvelope
    ("<tds:GetDeviceInformationResponse>\n<tds:Manufacturer>" ++ srv.manufacturer ++
     "</tds:Manufacturer>\n<tds:Model>" ++ srv.model ++
     "</tds:Model>\n<tds:FirmwareVersion>" ++ srv.firmware_version ++
     "</tds:FirmwareVersion>\n<tds:SerialNumber>" ++ srv.serial_number ++
     "</tds:SerialNumber>\n<tds:HardwareId>" ++ srv.device_uuid ++
     "</tds:HardwareId>\n</tds:GetDeviceInformationResponse>")

/-- Embeds `OnvifServer::handleGetCapabilities` (lines 119-167). -/
def handleGetCapabilities (srv : OnvifServer) : String :=
  generateSoapEnvelope
    ("<tds:GetCapabilitiesResponse>\n<tds:Capabilities>\n<tds:Device>\n<tds:XAddr>http://localhost:" ++
     toString srv.port ++
     "/onvif/device_service</tds:XAddr>\n<tds:Network>\n<tds:IPFilter>false</tds:IPFilter>\n<tds:ZeroConfiguration>false</tds:ZeroConfiguration>\n<tds:IPVersion6>false</tds:IPVersion6>\n<tds:DynDNS>false</tds:DynDNS>\n</tds:Network>\n<tds:System>\n<tds:DiscoveryResolve>false</tds:DiscoveryResolve>\n<tds:DiscoveryBye>false</tds:DiscoveryBye>\n<tds:RemoteDiscovery>false</tds:RemoteDiscovery>\n<tds:SystemBackup>false</tds:SystemBackup>\n<tds:SystemLogging>false</tds:SystemLogging>\n<tds:FirmwareUpgrade>false</tds:FirmwareUpgrade>\n</tds:System>\n<tds:IO>\n<tds:InputConnectors>0</tds:InputConnectors>\n<tds:RelayOutputs>0</tds:RelayOutputs>\n</tds:IO>\n<tds:Security>\n<tds:TLS1.1>false</tds:TLS1.1>\n<tds:TLS1.2>true</tds:TLS1.2>\n<tds:OnboardKeyGeneration>false</tds:OnboardKeyGeneration>\n<tds:AccessPolicyConfig>false</tds:AccessPolicyConfig>\n<tds:X.509Token>false</tds:X.509Token>\n<tds:SAMLToken>false</tds:SAMLToken>\n<tds:KerberosToken>false</tds:KerberosToken>\n<tds:RELToken>false</tds:RELToken>\n</tds:Security>\n</tds:Device>\n<tds:Media>\n<tds:XAddr>http://localhost:" ++
     toString srv.port ++
     "/onvif/media_service</tds:XAddr>\n<tds:StreamingCapabilities>\n<tds:RTPMulticast>false</tds:RTPMulticast>\n<tds:RTP_TCP>true</tds:RTP_TCP>\n<tds:RTP_RTSP_TCP>true</tds:RTP_RTSP_TCP>\n</tds:StreamingCapabilities>\n</tds:Media>\n<tds:PTZ>\n<tds:XAddr>http://localhost:" ++
     toString srv.port ++
     "/onvif/ptz_service</tds:XAddr>\n</tds:PTZ>\n</tds:Capabilities>\n</tds:GetCapabilitiesResponse>")

/-- The per-profile XML fragment appended on each iteration of the loop in
`OnvifServer::handleGetProfiles` (lines 171-200). -/
def profileXml (p : MediaProfile) : String :=
  "<trt:Profiles token=\"" ++ p.token ++
  "\" fixed=\"true\">\n<trt:Name>" ++ p.name ++
  "</trt:Name>\n<trt:VideoSourceConfiguration token=\"VideoSource_1\" fixed=\"true\">\n<trt:Name>VideoSourceConfig</trt:Name>\n<trt:UseCount>2</trt:UseCount>\n<trt:SourceToken>VideoSource_1</trt:SourceToken>\n<trt:Bounds x=\"0\" y=\"0\" width=\"" ++
  toString p.width ++ "\" height=\"" ++ toString p.height ++
  "\"/>\n</trt:VideoSourceConfiguration>\n<trt:VideoEncoderConfiguration token=\"" ++
  p.video_encoder_token ++
  "\" fixed=\"true\">\n<trt:Name>VideoEncoderConfig</trt:Name>\n<trt:UseCount>1</trt:UseCount>\n<trt:Encoding>H264</trt:Encoding>\n<trt:Resolution>\n<trt:Width>" ++
  toString p.width ++ "</trt:Width>\n<trt:Height>" ++ toString p.height ++
  "</trt:Height>\n</trt:Resolution>\n<trt:Quality>1</trt:Quality>\n<trt:RateControl>\n<trt:FrameRateLimit>" ++
  toString p.framerate ++
  "</trt:FrameRateLimit>\n<trt:EncodingInterval>1</trt:EncodingInterval>\n<trt:BitrateLimit>" ++
  toString p.bitrate ++
  "</trt:BitrateLimit>\n</trt:RateControl>\n<trt:H264>\n<trt:GovLength>30</trt:GovLength>\n<trt:H264Profile>Baseline</trt:H264Profile>\n</trt:H264>\n</trt:VideoEncoderConfiguration>\n</trt:Profiles>\n"

/-- The `profiles_xml` accumulator built by the loop in
`handleGetProfiles`: `+=` over the collection in stored order. -/
def profilesXml (l : List MediaProfile) : String :=
  l.foldl (fun acc p => acc ++ profileXml p) ""

/-- Embeds `OnvifServer::handleGetProfiles` (lines 169-204). -/
def handleGetProfiles (srv : OnvifServer) : String :=
  generateSoapEnvelope
    ("<trt:GetProfilesResponse>\n" ++ profilesXml srv.media_profiles ++
     "</trt:GetProfilesResponse>")

/-- Embeds `OnvifServer::handleGetStreamUri` (lines 206-216). -/
def handleGetStreamUri (srv : OnvifServer) : String :=
  generateSoapEnvelope
    ("<trt:GetStreamUriResponse>\n<trt:MediaUri>\n<trt:Uri>rtsp://localhost:" ++
     toString (srv.port + 1) ++
     "/stream1</trt:Uri>\n<trt:InvalidAfterConnect>false</trt:InvalidAfterConnect>\n<trt:InvalidAfterReboot>false</trt:InvalidAfterReboot>\n<trt:Timeout>PT60S</trt:Timeout>\n</trt:MediaUri>\n</trt:GetStreamUriResponse>")

/-- Models `OnvifServer::getCurrentTime` (lines 90-96), which formats the
live system clock.  The clock is an external input, so the formatted time
is threaded through as an explicit parameter. -/
def getCurrentTime (clock : String) : String := clock

/-- Embeds `OnvifServer::handleGetSystemDateAndTime` (lines 218-242).
The C++ method calls `getCurrentTime()` into `current_time` and then
never uses it; the body is built from fixed literals only. -/
def handleGetSystemDateAndTime (clock : String) : String :=
  let current_time := getCurrentTime clock
  generateSoapEnvelope
    "<tds:GetSystemDateAndTimeResponse>\n<tds:SystemDateAndTime>\n<tds:DateTimeType>Manual</tds:DateTimeType>\n<tds:DaylightSavings>false</tds:DaylightSavings>\n<tds:TimeZone>\n<tds:TZ>UTC</tds:TZ>\n</tds:TimeZone>\n<tds:UTCDateTime>\n<tds:Time>\n<tds:Hour>12</tds:Hour>\n<tds:Minute>0</tds:Minute>\n<tds:Second>0</tds:Second>\n</tds:Time>\n<tds:Date>\n<tds:Year>2024</tds:Year>\n<tds:Month>1</tds:Month>\n<tds:Day>1</tds:Day>\n</tds:Date>\n</tds:UTCDateTime>\n</tds:SystemDateAndTime>\n</tds:GetSystemDateAndTimeResponse>"

/-- Embeds `OnvifServer::handlePTZGetConfigurations` (lines 244-286). -/
def handlePTZGetConfigurations : String :=
  generateSoapEnvelope
    "<tptz:GetConfigurationsResponse>\n<tptz:PTZConfiguration token=\"PTZConfig_1\">\n<tptz:Name>PTZ Configuration</tptz:Name>\n<tptz:UseCount>1</tptz:UseCount>\n<tptz:NodeToken>PTZNode_1</tptz:NodeToken>\n<tptz:DefaultAbsolutePantTiltPositionSpace>http://www.onvif.org/ver10/tptz/PanTiltSpaces/PositionGenericSpace</tptz:DefaultAbsolutePantTiltPositionSpace>\n<tptz:DefaultAbsoluteZoomPositionSpace>http://www.onvif.org/ver10/tptz/ZoomSpaces/PositionGenericSpace</tptz:DefaultAbsoluteZoomPositionSpace>\n<tptz:DefaultRelativePanTiltTranslationSpace>http://www.onvif.org/ver10/tptz/PanTiltSpaces/TranslationGenericSpace</tptz:DefaultRelativePanTiltTranslationSpace>\n<tptz:DefaultRelativeZoomTranslationSpace>http://www.onvif.org/ver10/tptz/ZoomSpaces/TranslationGenericSpace</tptz:DefaultRelativeZoomTranslationSpace>\n<tptz:DefaultContinuousPanTiltVelocitySpace>http://www.onvif.org/ver10/tptz/PanTiltSpaces/VelocityGenericSpace</tptz:DefaultContinuousPanTiltVelocitySpace>\n<tptz:DefaultContinuousZoomVelocitySpace>http://www.onvif.org/ver10/tptz/ZoomSpaces/VelocityGenericSpace</tptz:DefaultContinuousZoomVelocitySpace>\n<tptz:DefaultPTZSpeed>\n<tptz:PanTilt x=\"1.0\" y=\"1.0\" space=\"http://www.onvif.org/ver10/tptz/PanTiltSpaces/GenericSpeedSpace\"/>\n<tptz:Zoom x=\"1.0\" space=\"http://www.onvif.org/ver10/tptz/ZoomSpaces/ZoomGenericSpeedSpace\"/>\n</tptz:DefaultPTZSpeed>\n<tptz:DefaultPTZTimeout>PT5S</tptz:DefaultPTZTimeout>\n<tptz:PanTiltLimits>\n<tptz:Range>\n<tptz:URI>http://www.onvif.org/ver10/tptz/PanTiltSpaces/PositionGenericSpace</tptz:URI>\n<tptz:XRange>\n<tptz:Min>-1.0</tptz:Min>\n<tptz:Max>1.0</tptz:Max>\n</tptz:XRange>\n<tptz:YRange>\n<tptz:Min>-1.0</tptz:Min>\n<tptz:Max>1.0</tptz:Max>\n</tptz:YRange>\n</tptz:Range>\n</tptz:PanTiltLimits>\n<tptz:ZoomLimits>\n<tptz:Range>\n<tptz:URI>http://www.onvif.org/ver10/tptz/ZoomSpaces/PositionGenericSpace</tptz:URI>\n<tptz:XRange>\n<tptz:Min>0.0</tptz:Min>\n<tptz:Max>1.0</tptz:Max>\n</tptz:XRange>\n</tptz:Range>\n</tptz:ZoomLimits>\n</tptz:PTZConfiguration>\n</tptz:GetConfigurationsResponse>"

/-- The fault fragment built on the default branch of `processRequest`
(lines 311-318). -/
def faultBody : String :=
  "<SOAP-ENV:Fault>\n<SOAP-ENV:Code>\n<SOAP-ENV:Value>SOAP-ENV:Receiver</SOAP-ENV:Value>\n</SOAP-ENV:Code>\n<SOAP-ENV:Reason>\n<SOAP-ENV:Text>Method not implemented</SOAP-ENV:Text>\n</SOAP-ENV:Reason>\n</SOAP-ENV:Fault>"

/-- Embeds `OnvifServer::processRequest` (lines 288-323): the dispatcher's
if-else chain over `request.find`, with the SOAP fault fallback. -/
def processRequest (srv : OnvifServer) (clock : String) (request : String) : String :=
  if containsSub request "GetDeviceInformation" then handleGetDeviceInformation srv
  else if containsSub request "GetCapabilities" then handleGetCapabilities srv
  else if containsSub request "GetProfiles" then handleGetProfiles srv
  else if containsSub request "GetStreamUri" then handleGetStreamUri srv
  else if containsSub request "GetSystemDateAndTime" then handleGetSystemDateAndTime clock
  else if containsSub request "GetConfigurations" then handlePTZGetConfigurations
  else generateSoapEnvelope faultBody

/-- The classification the dispatcher's if-else chain performs: the
`classify` operation of spec section 4.3, read off the same `find` tests
in the same order as `processRequest`. -/
def classify (request : String) : Operation :=
  if containsSub request "GetDeviceInformation" then Operation.getDeviceInformation
  else if containsSub request "GetCapabilities" then Operation.getCapabilities
  else if containsSub request "GetProfiles" then Operation.getProfiles
  else if containsSub request "GetStreamUri" then Operation.getStreamUri
  else if containsSub request "GetSystemDateAndTime" then Operation.getSystemDateAndTime
  else if containsSub request "GetConfigurations" then Operation.ptzGetConfigurations
  else Operation.unrecognized

/-- The response produced for each classification result. -/
def responseFor (srv : OnvifServer) : Operation → String
  | Operation.getDeviceInformation => handleGetDeviceInformation srv
  | Operation.getCapabilities => handleGetCapabilities srv
  | Operation.getProfiles => handleGetProfiles srv
  | Operation.getStreamUri => handleGetStreamUri srv
  | Operation.getSystemDateAndTime => handleGetSystemDateAndTime ""
  | Operation.ptzGetConfigurations => handlePTZGetConfigurations
  | Operation.unrecognized => generateSoapEnvelope faultBody

/-- `processRequest` paired with the server state after the call.  The
C++ method bodies on this path perform no writes to any member of
`OnvifServer`, so the state after the call is the state before it. -/
def processRequestSt (srv : OnvifServer) (clock request : String) : String × OnvifServer :=
  (processRequest srv clock request, srv)

/-- The server state after serving a sequence of requests, each given as
a `(clock, request)` pair. -/
def runServer (srv : OnvifServer) (reqs : List (String × String)) : OnvifServer :=
  reqs.foldl (fun s cr => (processRequestSt s cr.1 cr.2).2) srv

/-! ### Helper lemmas about the string-scanning primitives -/

theorem strAppend_assoc (a b c : String) : a ++ b ++ c = a ++ (b ++ c) :=
  String.ext (by simp)

theorem headMatches_append_self (pat rest : List Char) :
    headMatches pat (pat ++ rest) = true := by
  induction pat with
  | nil => rfl
  | cons c cs ih => simp [headMatches, ih]

theorem occursIn_of_headMatches (pat s : List Char) (h : headMatches pat s = true) :
    occursIn pat s = true := by
  cases s with
  | nil => simpa [occursIn] using h
  | cons c cs => simp [occursIn, h]

theorem occursIn_cons (pat : List Char) (c : Char) (cs : List Char)
    (h : occursIn pat cs = true) : occursIn pat (c :: cs) = true := by
  simp [occursIn, h]

theorem occursIn_parts (pat a b : List Char) : occursIn pat (a ++ (pat ++ b)) = true := by
  induction a with
  | nil => exact occursIn_of_headMatches _ _ (headMatches_append_self pat b)
  | cons x xs ih => exact occursIn_cons _ _ _ ih

/-- A string of the form `a ++ (pat ++ b)` contains `pat`. -/
theorem containsSub_of_parts (s a pat b : String) (h : s = a ++ (pat ++ b)) :
    containsSub s pat = true := by
  subst h
  show occursIn pat.data (a ++ (pat ++ b)).data = true
  have hd : (a ++ (pat ++ b)).data = a.data ++ (pat.data ++ b.data) := by
    simp [String.data_append]
  rw [hd]
  exact occursIn_parts _ _ _

/-- Matching a pattern against `sa ++ mid ++ b` cannot reach into `mid`
when no pattern character equals a `mid` character, so it agrees with
matching against `sa` alone. -/
theorem headMatches_disjoint : ∀ (pat sa mid b : List Char), mid ≠ [] →
    (∀ c1 ∈ pat, ∀ c2 ∈ mid, c1 ≠ c2) →
    headMatches pat (sa ++ (mid ++ b)) = headMatches pat sa
  | [], _, _, _, _, _ => rfl
  | p :: ps, [], [], b, hmne, _ => absurd rfl hmne
  | p :: ps, [], m :: ms, b, _, hdisj => by
      have hne : p ≠ m := hdisj p (by simp) m (by simp)
      show (p == m && headMatches ps (ms ++ b)) = false
      simp [hne]
  | p :: ps, x :: xs, mid, b, hmne, hdisj => by
      have ih := headMatches_disjoint ps xs mid b hmne
        (fun c1 h1 c2 h2 => hdisj c1 (List.mem_cons_of_mem p h1) c2 h2)
      show (p == x && headMatches ps (xs ++ (mid ++ b))) = (p == x && headMatches ps xs)
      rw [ih]

/-- No occurrence of `pat` can start inside `mid` when no pattern
character equals a `mid` character. -/
theorem countOccur_skip : ∀ (pat mid b : List Char), pat ≠ [] →
    (∀ c1 ∈ pat, ∀ c2 ∈ mid, c1 ≠ c2) →
    countOccur pat (mid ++ b) = countOccur pat b
  | _, [], _, _, _ => rfl
  | [], _ :: _, _, hpne, _ => absurd rfl hpne
  | p :: ps, m :: ms, b, hpne, hdisj => by
      have hne : p ≠ m := hdisj p (by simp) m (by simp)
      have ih := countOccur_skip (p :: ps) ms b hpne
        (fun c1 h1 c2 h2 => hdisj c1 h1 c2 (List.mem_cons_of_mem m h2))
      have h1 : headMatches (p :: ps) (m :: (ms ++ b)) = false := by
        show (p == m && headMatches ps (ms ++ b)) = false
        simp [hne]
      show (if headMatches (p :: ps) (m :: (ms ++ b)) then 1 else 0) +
          countOccur (p :: ps) (ms ++ b) = countOccur (p :: ps) b
      rw [h1, ih]
      simp

/-- Occurrence counting splits around a middle segment whose characters
are disjoint from the pattern's characters. -/
theorem countOccur_append (pat a mid b : List Char) (hpne : pat ≠ []) (hmne : mid ≠ [])
    (hdisj : ∀ c1 ∈ pat, ∀ c2 ∈ mid, c1 ≠ c2) :
    countOccur pat (a ++ (mid ++ b)) = countOccur pat a + countOccur pat b := by
  induction a with
  | nil =>
    have h0 : countOccur pat [] = 0 := by
      cases pat with
      | nil => exact absurd rfl hpne
      | cons p ps => rfl
    show countOccur pat (mid ++ b) = countOccur pat [] + countOccur pat b
    rw [countOccur_skip pat mid b hpne hdisj, h0, Nat.zero_add]
  | cons x xs ih =>
    have hh := headMatches_disjoint pat (x :: xs) mid b hmne hdisj
    simp only [List.cons_append] at hh
    show (if headMatches pat (x :: (xs ++ (mid ++ b))) then 1 else 0) +
        countOccur pat (xs ++ (mid ++ b)) = countOccur pat (x :: xs) + countOccur pat b
    rw [hh, ih]
    show _ = (if headMatches pat (x :: xs) then 1 else 0) + countOccur pat xs + countOccur pat b
    rw [Nat.add_assoc]

/-! ### All characters of `toString (n : Int)` are digits or a minus sign -/

theorem digitChar_isDigit (m : Nat) (h : m < 10) : (Nat.digitChar m).isDigit = true := by
  interval_cases m <;> decide

theorem toDigitsCore_digits (f : Nat) : ∀ (n : Nat) (l : List Char),
    (∀ c ∈ l, c.isDigit = true) → ∀ c ∈ Nat.toDigitsCore 10 f n l, c.isDigit = true := by
  induction f with
  | zero => intro n l hl c hc; exact hl c hc
  | succ f ih =>
    intro n l hl c hc
    simp only [Nat.toDigitsCore] at hc
    split at hc
    · rcases List.mem_cons.mp hc with h | h
      · subst h
        exact digitChar_isDigit _ (Nat.mod_lt n (by decide))
      · exact hl c h
    · refine ih (n / 10) (Nat.digitChar (n % 10) :: l) ?_ c hc
      intro d hd
      rcases List.mem_cons.mp hd with h | h
      · subst h
        exact digitChar_isDigit _ (Nat.mod_lt n (by decide))
      · exact hl d h

theorem natRepr_digits (n : Nat) : ∀ c ∈ (Nat.repr n).data, c.isDigit = true := by
  intro c hc
  exact toDigitsCore_digits (n + 1) n [] (by simp) c hc

theorem toDigitsCore_ne_nil : ∀ (f n : Nat) (l : List Char), l ≠ [] →
    Nat.toDigitsCore 10 f n l ≠ []
  | 0, _, _, h => h
  | f + 1, n, l, h => by
      simp only [Nat.toDigitsCore]
      split
      · simp
      · exact toDigitsCore_ne_nil f (n / 10) _ (by simp)

theorem natRepr_ne_nil (n : Nat) : (Nat.repr n).data ≠ [] := by
  show Nat.toDigitsCore 10 (n + 1) n [] ≠ []
  simp only [Nat.toDigitsCore]
  split
  · simp
  · exact toDigitsCore_ne_nil n (n / 10) _ (by simp)

theorem intToString_chars (n : Int) : ∀ c ∈ (toString n).data, (c.isDigit || c == '-') = true := by
  cases n with
  | ofNat m =>
    intro c hc
    have hr : toString (Int.ofNat m) = Nat.repr m := rfl
    rw [hr] at hc
    simp [natRepr_digits m c hc]
  | negSucc m =>
    intro c hc
    have hr : toString (Int.negSucc m) = "-" ++ Nat.repr (m + 1) := rfl
    rw [hr, String.data_append] at hc
    rcases List.mem_append.mp hc with h | h
    · have hm : c = '-' := by simpa using h
      simp [hm]
    · simp [natRepr_digits (m + 1) c h]

theorem intToString_ne_nil (n : Int) : (toString n).data ≠ [] := by
  cases n with
  | ofNat m =>
    have hr : toString (Int.ofNat m) = Nat.repr m := rfl
    rw [hr]
    exact natRepr_ne_nil m
  | negSucc m =>
    have hr : toString (Int.negSucc m) = "-" ++ Nat.repr (m + 1) := rfl
    rw [hr, String.data_append]
    simp

/-- Occurrence counting in a string that embeds a rendered integer splits
into the parts before and after it, for any pattern free of digit and
minus characters. -/
theorem countOccurStr_around_int (pre post : String) (n : Int) (pat : String)
    (hpne : pat.data ≠ [])
    (hpat : ∀ c ∈ pat.data, (c.isDigit || c == '-') = false) :
    countOccurStr (pre ++ toString n ++ post) pat =
      countOccurStr pre pat + countOccurStr post pat := by
  show countOccur pat.data (pre ++ toString n ++ post).data = _
  have hd : (pre ++ toString n ++ post).data =
      pre.data ++ ((toString n).data ++ post.data) := by
    simp [String.data_append]
  rw [hd]
  exact countOccur_append pat.data pre.data (toString n).data post.data hpne
    (intToString_ne_nil n)
    (fun c1 h1 c2 h2 he => by
      have ht := intToString_chars n c2 h2
      rw [← he, hpat c1 h1] at ht
      exact Bool.false_ne_true ht)

/-- Accumulator form of `countOccur`, used to evaluate occurrence counts
on large concrete strings. -/
def countOccurAux (pat : List Char) : List Char → Nat → Nat
  | [], acc => if headMatches pat [] then acc + 1 else acc
  | c :: cs, acc =>
    if headMatches pat (c :: cs) then countOccurAux pat cs (acc + 1)
    else countOccurAux pat cs acc

theorem countOccurAux_eq (pat : List Char) :
    ∀ (l : List Char) (acc : Nat), countOccurAux pat l acc = acc + countOccur pat l := by
  intro l
  induction l with
  | nil =>
    intro acc
    show (if headMatches pat [] then acc + 1 else acc) =
      acc + (if headMatches pat [] then 1 else 0)
    cases h : headMatches pat [] <;> simp [h]
  | cons c cs ih =>
    intro acc
    show (if headMatches pat (c :: cs) then countOccurAux pat cs (acc + 1)
        else countOccurAux pat cs acc) =
      acc + ((if headMatches pat (c :: cs) then 1 else 0) + countOccur pat cs)
    cases h : headMatches pat (c :: cs) <;> simp [h, ih] <;> omega

theorem countOccurStr_eval (s pat : String) :
    countOccurStr s pat = countOccurAux pat.data s.data 0 := by
  rw [countOccurAux_eq, Nat.zero_add]
  rfl

/-! ### The dispatcher factors through classification -/

/-- `processRequest` is the response builder selected by `classify`:
the dispatcher's if-else chain and the classification chain test the same
conditions in the same order. -/
theorem processRequest_eq (srv : OnvifServer) (clock s : String) :
    processRequest srv clock s = responseFor srv (classify s) := by
  unfold processRequest classify
  split_ifs <;> rfl

/-! ### Claim theorems -/

/-- C1: `classify` scans the input for the six operation-name substrings
in the precedence order GetDeviceInformation, GetCapabilities,
GetProfiles, GetStreamUri, GetSystemDateAndTime, GetConfigurations and
returns the Operation of the first substring found; a body containing
both "GetDeviceInformation" and "GetCapabilities", in either textual
order, classifies as GetDeviceInformation, and an input containing none
of the six substrings (the empty string included) classifies as
Unrecognized. -/
theorem classify_precedence (s : String) :
    (containsSub s "GetDeviceInformation" = true →
      classify s = Operation.getDeviceInformation) ∧
    (containsSub s "GetDeviceInformation" = false →
      containsSub s "GetCapabilities" = true →
      classify s = Operation.getCapabilities) ∧
    (containsSub s "GetDeviceInformation" = false →
      containsSub s "GetCapabilities" = false →
      containsSub s "GetProfiles" = true →
      classify s = Operation.getProfiles) ∧
    (containsSub s "GetDeviceInformation" = false →
      containsSub s "GetCapabilities" = false →
      containsSub s "GetProfiles" = false →
      containsSub s "GetStreamUri" = true →
      classify s = Operation.getStreamUri) ∧
    (containsSub s "GetDeviceInformation" = false →
      containsSub s "GetCapabilities" = false →
      containsSub s "GetProfiles" = false →
      containsSub s "GetStreamUri" = false →
      containsSub s "GetSystemDateAndTime" = true →
      classify s = Operation.getSystemDateAndTime) ∧
    (containsSub s "GetDeviceInformation" = false →
      containsSub s "GetCapabilities" = false →
      containsSub s "GetProfiles" = false →
      containsSub s "GetStreamUri" = false →
      containsSub s "GetSystemDateAndTime" = false →
      containsSub s "GetConfigurations" = true →
      classify s = Operation.ptzGetConfigurations) ∧
    (containsSub s "GetDeviceInformation" = false →
      containsSub s "GetCapabilities" = false →
      containsSub s "GetProfiles" = false →
      containsSub s "GetStreamUri" = false →
      containsSub s "GetSystemDateAndTime" = false →
      containsSub s "GetConfigurations" = false →
      classify s = Operation.unrecognized) ∧
    classify "<a>GetDeviceInformation</a><b>GetCapabilities</b>" =
      Operation.getDeviceInformation ∧
    classify "<b>GetCapabilities</b><a>GetDeviceInformation</a>" =
      Operation.getDeviceInformation ∧
    classify "" = Operation.unrecognized := by
  refine ⟨?_, ?_, ?_, ?_, ?_, ?_, ?_, by decide, by decide, by decide⟩ <;>
    · intros
      simp [classify, *]

/-- Witness for C1: the first-match clause applied at a concrete input. -/
theorem classify_precedence_witness :
    containsSub "<soap>GetDeviceInformation</soap>" "GetDeviceInformation" = true ∧
    classify "<soap>GetDeviceInformation</soap>" = Operation.getDeviceInformation :=
  ⟨by decide, (classify_precedence "<soap>GetDeviceInformation</soap>").1 (by decide)⟩

/-- C2: `processRequest` is total by construction (a Lean function to
`String`), and for every input containing none of the six operation
substrings — the empty string included — it returns the SOAP envelope
wrapping a Fault whose Code value is SOAP-ENV:Receiver and whose Reason
text is "Method not implemented". -/
theorem dispatch_fault (srv : OnvifServer) (clock s : String)
    (h1 : containsSub s "GetDeviceInformation" = false)
    (h2 : containsSub s "GetCapabilities" = false)
    (h3 : containsSub s "GetProfiles" = false)
    (h4 : containsSub s "GetStreamUri" = false)
    (h5 : containsSub s "GetSystemDateAndTime" = false)
    (h6 : containsSub s "GetConfigurations" = false) :
    processRequest srv clock s = generateSoapEnvelope faultBody ∧
    containsSub (processRequest srv clock s)
      "<SOAP-ENV:Value>SOAP-ENV:Receiver</SOAP-ENV:Value>" = true ∧
    containsSub (processRequest srv clock s)
      "<SOAP-ENV:Text>Method not implemented</SOAP-ENV:Text>" = true := by
  have hp : processRequest srv clock s = generateSoapEnvelope faultBody := by
    simp [processRequest, h1, h2, h3, h4, h5, h6]
  refine ⟨hp, ?_, ?_⟩ <;> rw [hp] <;> decide

/-- Witness for C2 at the concrete unrecognized input "garbage". -/
theorem dispatch_fault_witness :
    processRequest defaultServer "2024-01-01T00:00:00Z" "garbage" =
      generateSoapEnvelope faultBody ∧
    containsSub (processRequest defaultServer "2024-01-01T00:00:00Z" "garbage")
      "<SOAP-ENV:Value>SOAP-ENV:Receiver</SOAP-ENV:Value>" = true ∧
    containsSub (processRequest defaultServer "2024-01-01T00:00:00Z" "garbage")
      "<SOAP-ENV:Text>Method not implemented</SOAP-ENV:Text>" = true :=
  dispatch_fault defaultServer "2024-01-01T00:00:00Z" "garbage" (by decide) (by decide)
    (by decide) (by decide) (by decide) (by decide)

/-- C3: every input that classifies as GetSystemDateAndTime yields the
fixed broken-down time Hour=12, Minute=0, Second=0, Year=2024, Month=1,
Day=1 with DateTimeType=Manual, DaylightSavings=false and TZ=UTC, and
the response does not depend on the live clock value even though the
`getCurrentTime` helper that formats the live clock is called. -/
theorem sysdt_fixed (srv : OnvifServer) (clock clock2 s : String)
    (h : classify s = Operation.getSystemDateAndTime) :
    processRequest srv clock s = processRequest srv clock2 s ∧
    containsSub (processRequest srv clock s) "<tds:Hour>12</tds:Hour>" = true ∧
    containsSub (processRequest srv clock s) "<tds:Minute>0</tds:Minute>" = true ∧
    containsSub (processRequest srv clock s) "<tds:Second>0</tds:Second>" = true ∧
    containsSub (processRequest srv clock s) "<tds:Year>2024</tds:Year>" = true ∧
    containsSub (processRequest srv clock s) "<tds:Month>1</tds:Month>" = true ∧
    containsSub (processRequest srv clock s) "<tds:Day>1</tds:Day>" = true ∧
    containsSub (processRequest srv clock s)
      "<tds:DateTimeType>Manual</tds:DateTimeType>" = true ∧
    containsSub (processRequest srv clock s)
      "<tds:DaylightSavings>false</tds:DaylightSavings>" = true ∧
    containsSub (processRequest srv clock s) "<tds:TZ>UTC</tds:TZ>" = true := by
  rw [processRequest_eq srv clock s, processRequest_eq srv clock2 s, h]
  have hr : responseFor srv Operation.getSystemDateAndTime = handleGetSystemDateAndTime "" := rfl
  rw [hr]
  exact ⟨rfl, by decide, by decide, by decide, by decide, by decide, by decide,
    by decide, by decide, by decide⟩

/-- Witness for C3: clock-independence at a concrete input and two
distinct clock values. -/
theorem sysdt_fixed_witness :
    processRequest defaultServer "2024-06-01T10:00:00Z" "GetSystemDateAndTime" =
      processRequest defaultServer "1999-12-31T23:59:59Z" "GetSystemDateAndTime" :=
  (sysdt_fixed defaultServer "2024-06-01T10:00:00Z" "1999-12-31T23:59:59Z"
    "GetSystemDateAndTime" (by decide)).1

/-- Everything in the per-profile fragment after the opening
`<trt:Profiles token="` and the profile's token. -/
def profileTail (p : MediaProfile) : String :=
  "\" fixed=\"true\">\n<trt:Name>" ++ p.name ++
  "</trt:Name>\n<trt:VideoSourceConfiguration token=\"VideoSource_1\" fixed=\"true\">\n<trt:Name>VideoSourceConfig</trt:Name>\n<trt:UseCount>2</trt:UseCount>\n<trt:SourceToken>VideoSource_1</trt:SourceToken>\n<trt:Bounds x=\"0\" y=\"0\" width=\"" ++
  toString p.width ++ "\" height=\"" ++ toString p.height ++
  "\"/>\n</trt:VideoSourceConfiguration>\n<trt:VideoEncoderConfiguration token=\"" ++
  p.video_encoder_token ++
  "\" fixed=\"true\">\n<trt:Name>VideoEncoderConfig</trt:Name>\n<trt:UseCount>1</trt:UseCount>\n<trt:Encoding>H264</trt:Encoding>\n<trt:Resolution>\n<trt:Width>" ++
  toString p.width ++ "</trt:Width>\n<trt:Height>" ++ toString p.height ++
  "</trt:Height>\n</trt:Resolution>\n<trt:Quality>1</trt:Quality>\n<trt:RateControl>\n<trt:FrameRateLimit>" ++
  toString p.framerate ++
  "</trt:FrameRateLimit>\n<trt:EncodingInterval>1</trt:EncodingInterval>\n<trt:BitrateLimit>" ++
  toString p.bitrate ++
  "</trt:BitrateLimit>\n</trt:RateControl>\n<trt:H264>\n<trt:GovLength>30</trt:GovLength>\n<trt:H264Profile>Baseline</trt:H264Profile>\n</trt:H264>\n</trt:VideoEncoderConfiguration>\n</trt:Profiles>\n"

/-- Each per-profile fragment opens with a token attribute equal to the
profile's token. -/
theorem profileXml_decomp (p : MediaProfile) :
    profileXml p = "<trt:Profiles token=\"" ++ (p.token ++ profileTail p) := by
  unfold profileXml profileTail
  simp only [strAppend_assoc]

theorem getD_map (l : List MediaProfile) (i : Nat) (h : i < l.length) :
    (l.map profileXml).getD i "" = profileXml (l.getD i default) := by
  induction l generalizing i with
  | nil => simp at h
  | cons p ps ih =>
    cases i with
    | zero => simp
    | succ j =>
      have hj : j < ps.length := by simpa using h
      simpa using ih j hj

theorem occursIn_right (pat a b : List Char) (h : occursIn pat b = true) :
    occursIn pat (a ++ b) = true := by
  induction a with
  | nil => simpa using h
  | cons x xs ih => exact occursIn_cons _ _ _ ih

/-- If the right part of a concatenation contains the pattern, so does
the whole string. -/
theorem containsSub_of_right (s a b pat : String) (h : s = a ++ b)
    (hb : containsSub b pat = true) : containsSub s pat = true := by
  subst h
  show occursIn pat.data (a ++ b).data = true
  rw [String.data_append]
  exact occursIn_right pat.data a.data b.data hb

/-- C4: for every MediaProfile collection, the GetProfiles response is
the envelope around one `profileXml` fragment per stored profile,
concatenated in the collection's stored order, and the i-th fragment
opens with a `token` attribute equal to the i-th stored profile's
token. -/
theorem getProfiles_structure (srv : OnvifServer) (clock s : String)
    (h : classify s = Operation.getProfiles) :
    processRequest srv clock s =
      generateSoapEnvelope ("<trt:GetProfilesResponse>\n" ++
        (srv.media_profiles.map profileXml).foldl (fun a b => a ++ b) "" ++
        "</trt:GetProfilesResponse>") ∧
    (srv.media_profiles.map profileXml).length = srv.media_profiles.length ∧
    (∀ i, i < srv.media_profiles.length →
      (srv.media_profiles.map profileXml).getD i "" =
        "<trt:Profiles token=\"" ++
          ((srv.media_profiles.getD i default).token ++
            profileTail (srv.media_profiles.getD i default))) := by
  refine ⟨?_, List.length_map _ _, ?_⟩
  · rw [processRequest_eq srv clock s, h]
    have hr : responseFor srv Operation.getProfiles = handleGetProfiles srv := rfl
    rw [hr]
    unfold handleGetProfiles profilesXml
    rw [List.foldl_map]
  · intro i hi
    rw [getD_map srv.media_profiles i hi, profileXml_decomp]

/-- Witness for C4 at the default profile store and a concrete input. -/
theorem getProfiles_structure_witness :
    processRequest defaultServer "clk" "GetProfiles" =
      generateSoapEnvelope ("<trt:GetProfilesResponse>\n" ++
        (defaultServer.media_profiles.map profileXml).foldl (fun a b => a ++ b) "" ++
        "</trt:GetProfilesResponse>") :=
  (getProfiles_structure defaultServer "clk" "GetProfiles" (by decide)).1

/-- C5: every input that classifies as GetStreamUri yields a response
with a single MediaUri whose Uri is `rtsp://localhost:<port+1>/stream1`,
with InvalidAfterConnect=false, InvalidAfterReboot=false and
Timeout=PT60S; with port 8080 the Uri element is exactly
`rtsp://localhost:8081/stream1`. -/
theorem streamUri_response (srv : OnvifServer) (clock s : String)
    (h : classify s = Operation.getStreamUri) :
    containsSub (processRequest srv clock s)
      ("<trt:Uri>rtsp://localhost:" ++ toString (srv.port + 1) ++ "/stream1</trt:Uri>") =
      true ∧
    countOccurStr (processRequest srv clock s) "<trt:MediaUri>" = 1 ∧
    containsSub (processRequest srv clock s)
      "<trt:InvalidAfterConnect>false</trt:InvalidAfterConnect>" = true ∧
    containsSub (processRequest srv clock s)
      "<trt:InvalidAfterReboot>false</trt:InvalidAfterReboot>" = true ∧
    containsSub (processRequest srv clock s) "<trt:Timeout>PT60S</trt:Timeout>" = true ∧
    (srv.port = 8080 →
      containsSub (processRequest srv clock s)
        "<trt:Uri>rtsp://localhost:8081/stream1</trt:Uri>" = true) := by
  rw [processRequest_eq srv clock s, h]
  have hr : responseFor srv Operation.getStreamUri = handleGetStreamUri srv := rfl
  rw [hr]
  have hform : handleGetStreamUri srv =
      (soapHeader ++ "<trt:GetStreamUriResponse>\n<trt:MediaUri>\n<trt:Uri>rtsp://localhost:") ++
      toString (srv.port + 1) ++
      ("/stream1</trt:Uri>\n<trt:InvalidAfterConnect>false</trt:InvalidAfterConnect>\n<trt:InvalidAfterReboot>false</trt:InvalidAfterReboot>\n<trt:Timeout>PT60S</trt:Timeout>\n</trt:MediaUri>\n</trt:GetStreamUriResponse>" ++
       soapFooter) := by
    unfold handleGetStreamUri generateSoapEnvelope
    simp only [strAppend_assoc]
  refine ⟨?_, ?_, ?_, ?_, ?_, ?_⟩
  · refine containsSub_of_parts _
      (soapHeader ++ "<trt:GetStreamUriResponse>\n<trt:MediaUri>\n") _
      ("\n<trt:InvalidAfterConnect>false</trt:InvalidAfterConnect>\n<trt:InvalidAfterReboot>false</trt:InvalidAfterReboot>\n<trt:Timeout>PT60S</trt:Timeout>\n</trt:MediaUri>\n</trt:GetStreamUriResponse>" ++
       soapFooter) ?_
    have hsplit1 :
        ("<trt:GetStreamUriResponse>\n<trt:MediaUri>\n<trt:Uri>rtsp://localhost:" : String) =
        "<trt:GetStreamUriResponse>\n<trt:MediaUri>\n" ++ "<trt:Uri>rtsp://localhost:" := by
      decide
    have hsplit2 :
        ("/stream1</trt:Uri>\n<trt:InvalidAfterConnect>false</trt:InvalidAfterConnect>\n<trt:InvalidAfterReboot>false</trt:InvalidAfterReboot>\n<trt:Timeout>PT60S</trt:Timeout>\n</trt:MediaUri>\n</trt:GetStreamUriResponse>" : String) =
        "/stream1</trt:Uri>" ++
        "\n<trt:InvalidAfterConnect>false</trt:InvalidAfterConnect>\n<trt:InvalidAfterReboot>false</trt:InvalidAfterReboot>\n<trt:Timeout>PT60S</trt:Timeout>\n</trt:MediaUri>\n</trt:GetStreamUriResponse>" := by
      decide
    unfold handleGetStreamUri generateSoapEnvelope
    rw [hsplit1, hsplit2]
    simp only [strAppend_assoc]
  · rw [hform, countOccurStr_around_int _ _ _ _ (by decide) (by decide)]
    decide
  · exact containsSub_of_right _ _ _ _ hform (by decide)
  · exact containsSub_of_right _ _ _ _ hform (by decide)
  · exact containsSub_of_right _ _ _ _ hform (by decide)
  · intro hp
    rw [hform, hp]
    decide

/-- Witness for C5 at the default server (port 8080) and a concrete
GetStreamUri request. -/
theorem streamUri_response_witness :
    countOccurStr (processRequest defaultServer "clk2" "GetStreamUri") "<trt:MediaUri>" = 1 ∧
    containsSub (processRequest defaultServer "clk2" "GetStreamUri")
      "<trt:Uri>rtsp://localhost:8081/stream1</trt:Uri>" = true :=
  ⟨(streamUri_response defaultServer "clk2" "GetStreamUri" (by decide)).2.1,
   (streamUri_response defaultServer "clk2" "GetStreamUri" (by decide)).2.2.2.2.2 (by decide)⟩

/-- C6: the envelope generator emits the XML declaration, an Envelope
root declaring exactly the four namespace prefixes SOAP-ENV, tds, trt
and tptz, and a single Body wrapping the supplied fragment verbatim; and
every dispatcher output of the constructed server — the Fault path
included — contains exactly one Envelope open/close tag and one Body
open/close tag. -/
theorem wrap_structure (b clock s : String) :
    generateSoapEnvelope b = soapHeader ++ (b ++ soapFooter) ∧
    countOccurStr soapHeader "xmlns:" = 4 ∧
    containsSub soapHeader "xmlns:SOAP-ENV=\"http://www.w3.org/2003/05/soap-envelope\"" =
      true ∧
    containsSub soapHeader "xmlns:tds=\"http://www.onvif.org/ver10/device/wsdl\"" = true ∧
    containsSub soapHeader "xmlns:trt=\"http://www.onvif.org/ver10/media/wsdl\"" = true ∧
    containsSub soapHeader "xmlns:tptz=\"http://www.onvif.org/ver20/ptz/wsdl\"" = true ∧
    headMatchesStr soapHeader "<?xml version=\"1.0\" encoding=\"UTF-8\"?>\n" = true ∧
    countOccurStr soapHeader "<SOAP-ENV:Envelope" = 1 ∧
    countOccurStr soapHeader "<SOAP-ENV:Body>" = 1 ∧
    countOccurStr soapFooter "</SOAP-ENV:Body>" = 1 ∧
    countOccurStr soapFooter "</SOAP-ENV:Envelope>" = 1 ∧
    countOccurStr (processRequest defaultServer clock s) "<SOAP-ENV:Envelope" = 1 ∧
    countOccurStr (processRequest defaultServer clock s) "<SOAP-ENV:Body>" = 1 ∧
    countOccurStr (processRequest defaultServer clock s) "</SOAP-ENV:Envelope>" = 1 ∧
    countOccurStr (processRequest defaultServer clock s) "</SOAP-ENV:Body>" = 1 := by
  refine ⟨strAppend_assoc _ _ _, by decide, by decide, by decide, by decide, by decide,
    by decide, by decide, by decide, by decide, by decide, ?_, ?_, ?_, ?_⟩ <;>
    · rw [processRequest_eq]
      cases hcl : classify s <;>
        · rw [countOccurStr_eval]
          decide

/-- After any request history the server state is the constructed one:
no branch of `processRequest` writes any member. -/
theorem runServer_id (srv : OnvifServer) (reqs : List (String × String)) :
    runServer srv reqs = srv := by
  induction reqs generalizing srv with
  | nil => rfl
  | cons cr rest ih => exact ih srv

/-- C7: in every state reachable by any sequence of dispatch calls, the
profile store holds exactly the MainStream (1920x1080, 30 fps,
4000000 bps) and SubStream (640x480, 15 fps, 1000000 bps) profiles in
that order, their tokens are distinct, and every width, height,
framerate and bitrate is positive. -/
theorem store_invariant (reqs : List (String × String)) :
    (runServer defaultServer reqs).media_profiles.length = 2 ∧
    ((runServer defaultServer reqs).media_profiles.getD 0 default).name = "MainStream" ∧
    ((runServer defaultServer reqs).media_profiles.getD 0 default).width = 1920 ∧
    ((runServer defaultServer reqs).media_profiles.getD 0 default).height = 1080 ∧
    ((runServer defaultServer reqs).media_profiles.getD 0 default).framerate = 30 ∧
    ((runServer defaultServer reqs).media_profiles.getD 0 default).bitrate = 4000000 ∧
    ((runServer defaultServer reqs).media_profiles.getD 1 default).name = "SubStream" ∧
    ((runServer defaultServer reqs).media_profiles.getD 1 default).width = 640 ∧
    ((runServer defaultServer reqs).media_profiles.getD 1 default).height = 480 ∧
    ((runServer defaultServer reqs).media_profiles.getD 1 default).framerate = 15 ∧
    ((runServer defaultServer reqs).media_profiles.getD 1 default).bitrate = 1000000 ∧
    ((runServer defaultServer reqs).media_profiles.getD 0 default).token ≠
      ((runServer defaultServer reqs).media_profiles.getD 1 default).token ∧
    ∀ p ∈ (runServer defaultServer reqs).media_profiles,
      0 < p.width ∧ 0 < p.height ∧ 0 < p.framerate ∧ 0 < p.bitrate := by
  rw [runServer_id]
  decide

/-- C8: dispatch is a pure function of its input — after any two request
histories and for any two clock values, the same input string yields
byte-identical output. -/
theorem dispatch_idempotent (reqs1 reqs2 : List (String × String)) (c1 c2 s : String) :
    processRequest (runServer defaultServer reqs1) c1 s =
      processRequest (runServer defaultServer reqs2) c2 s := by
  rw [runServer_id, runServer_id, processRequest_eq, processRequest_eq]

/-- C9: no dispatch call mutates the identity fields or the profile
collection — the state paired with the response equals the state before
the call, field by field. -/
theorem dispatch_frame (srv : OnvifServer) (clock s : String) :
    (processRequestSt srv clock s).2.device_uuid = srv.device_uuid ∧
    (processRequestSt srv clock s).2.device_name = srv.device_name ∧
    (processRequestSt srv clock s).2.manufacturer = srv.manufacturer ∧
    (processRequestSt srv clock s).2.model = srv.model ∧
    (processRequestSt srv clock s).2.serial_number = srv.serial_number ∧
    (processRequestSt srv clock s).2.firmware_version = srv.firmware_version ∧
    (processRequestSt srv clock s).2.media_profiles = srv.media_profiles ∧
    (processRequestSt srv clock s).2.media_profiles.length = srv.media_profiles.length :=
  ⟨rfl, rfl, rfl, rfl, rfl, rfl, rfl, rfl⟩

/-- C10: for the constructed server, every response is determined by the
input's classification alone (so no byte of the request is echoed), each
of the seven classifications is realized by some input, and the seven
corresponding responses are pairwise distinct — the image of dispatch is
exactly seven strings. -/
theorem dispatch_image (clock s t : String) :
    processRequest defaultServer clock s = responseFor defaultServer (classify s) ∧
    (classify s = classify t →
      processRequest defaultServer clock s = processRequest defaultServer clock t) ∧
    (∀ op : Operation, ∃ u : String, classify u = op) ∧
    ([Operation.getDeviceInformation, Operation.getCapabilities, Operation.getProfiles,
      Operation.getStreamUri, Operation.getSystemDateAndTime,
      Operation.ptzGetConfigurations, Operation.unrecognized].map
        (responseFor defaultServer)).Nodup := by
  refine ⟨processRequest_eq _ _ _, ?_, ?_, ?_⟩
  · intro hst
    rw [processRequest_eq, processRequest_eq, hst]
  · intro op
    cases op with
    | getDeviceInformation => exact ⟨"GetDeviceInformation", by decide⟩
    | getCapabilities => exact ⟨"GetCapabilities", by decide⟩
    | getProfiles => exact ⟨"GetProfiles", by decide⟩
    | getStreamUri => exact ⟨"GetStreamUri", by decide⟩
    | getSystemDateAndTime => exact ⟨"GetSystemDateAndTime", by decide⟩
    | ptzGetConfigurations => exact ⟨"GetConfigurations", by decide⟩
    | unrecognized => exact ⟨"", by decide⟩
  · decide

/-- Witness for C10: two different request bodies with the same
classification receive byte-identical responses. -/
theorem dispatch_image_witness :
    processRequest defaultServer "c" "<x>GetProfiles</x>" =
      processRequest defaultServer "c" "GetProfiles now" :=
  (dispatch_image "c" "<x>GetProfiles</x>" "GetProfiles now").2.1 (by decide)
